import Mathlib

/-!
Verification of the durable delayed-task scheduler in `src/server.js`
(Ritech HR and operations). The JavaScript source is shallowly embedded:
timestamps are `Int` milliseconds since the Unix epoch, the Mongo
collection is a `List Reminder`, the Slack transport and the e-mail →
Slack-id resolver are passed in as `Except`-valued functions, and each
handler returns the list of side effects it performed.
-/

/-- The persisted task record, after `reminderSchema` (src/server.js:29-39).
Mongo document ids are modelled as `Nat`. -/
structure Reminder where
  id : Nat
  name : String
  slackId : String
  ruleName : String
  message : String
  scheduledFor : Int
  executed : Bool
  executedAt : Option Int
  createdAt : Int
  error : Option String
  deriving DecidableEq, Repr

/-- The spec's task status enum {Pending, Executed, Failed}. -/
inductive Status where
  | Pending
  | Executed
  | Failed
  deriving DecidableEq, Repr

/-- Abstraction from the stored record to the spec's status enum: the schema
has `executed : Boolean` and an optional `error` string; the spec reads
`executed = true` as Executed, an error on an unexecuted record as Failed,
and everything else as Pending. -/
def Reminder.status (r : Reminder) : Status :=
  if r.executed then .Executed
  else if r.error.isSome then .Failed
  else .Pending

/-- One entry of the rule tables (src/server.js:60-80). -/
structure Rule where
  name : String
  offsetDays : Int
  template : String
  deriving DecidableEq, Repr

/-- Table `onboardingRules` (src/server.js:60-71). -/
def onboardingRules : List Rule := [
  { name := "create-email",      offsetDays := -7, template := "🔔 Create business e-mail address from GoDaddy for <%= name %>" },
  { name := "create-bamboo",     offsetDays := -3, template := "🔔 Create BambooHR account for <%= name %>" },
  { name := "send-welcome",      offsetDays := -7, template := "🔔 Send welcome e-mail to <%= name %>" },
  { name := "setup-device",      offsetDays := -4, template := "🔔 Set up work device and peripherals for <%= name %>" },
  { name := "activate-card",     offsetDays := -4, template := "🔔 Activate access card for <%= name %>" },
  { name := "day-1-orientation", offsetDays :=  0, template := "🔔 Day 1 Orientation for <%= name %> (tour & policies)" },
  { name := "verify-systems",    offsetDays :=  0, template := "🔔 Ensure all work-related systems work correctly for <%= name %>" },
  { name := "team-intro",        offsetDays :=  0, template := "🔔 Introduction with the team for <%= name %>" },
  { name := "paperwork-signing", offsetDays :=  2, template := "🔔 Paperwork signing (Silvio) for <%= name %>" },
  { name := "upload-docs",       offsetDays := 30, template := "🔔 Upload all signed and scanned documents to BambooHR profile for <%= name %>" }]

/-- Table `offboardingRules` (src/server.js:73-80). -/
def offboardingRules : List Rule := [
  { name := "terminate-bamboo",   offsetDays := 0,  template := "🔔 Terminate <%= name %> on BambooHR (ASAP)" },
  { name := "deactivate-email",   offsetDays := 0,  template := "🔔 Deactivate business e-mail address from GoDaddy for <%= name %>" },
  { name := "deactivate-slack",   offsetDays := 0,  template := "🔔 Deactivate Slack account for <%= name %>" },
  { name := "collect-hardware",   offsetDays := 0,  template := "🔔 Collect company-owned hardware (Laptop and access card) from <%= name %>" },
  { name := "final-payroll",      offsetDays := 30, template := "🔔 Process final payroll (salary + remaining PTO) for <%= name %> - Renisa" },
  { name := "upload-termination", offsetDays := 30, template := "🔔 Upload Termination agreement form to BambooHR profile for <%= name %>" }]

/-- Milliseconds in one day; `luxon`'s `plus \x7b days: d \x7d` in the UTC zone
adds exactly `d` times this amount. -/
def msPerDay : Int := 86400000

/-- Node's maximum timer duration (2^31 − 1 ms), the spec's `MAX_DELAY`;
the source itself never mentions or checks this constant. -/
def MAX_DELAY : Int := 2147483647

/-- The scheduling decision of `scheduleDelayedMessage` (src/server.js:86-107):
`delay = scheduledFor − now`; a non-positive delay executes the reminder
immediately with no timer, a positive delay arms a single `setTimeout` for
exactly `delay`. -/
inductive SchedAction where
  | executeNow
  | armTimer (duration : Int)
  deriving DecidableEq, Repr

/-- Function `scheduleDelayedMessage` (src/server.js:86-107), reduced to its scheduling
decision for one reminder. -/
def scheduleDelayedMessage (scheduledFor now : Int) : SchedAction :=
  let delay := scheduledFor - now
  if delay ≤ 0 then .executeNow else .armTimer delay

/-- Durations of every timer armed before the execution engine finally runs
for one reminder: the `setTimeout` callback (src/server.js:100-103) invokes
`executeReminder` directly and never re-enters `scheduleDelayedMessage`,
so at most the one initial timer is ever armed. -/
def armedTimerDurations (scheduledFor now : Int) : List Int :=
  match scheduleDelayedMessage scheduledFor now with
  | .executeNow => []
  | .armTimer d => [d]

/-- Mongoose `Reminder.findById` on the embedded collection. -/
def findById (db : List Reminder) (id : Nat) : Option Reminder :=
  db.find? (fun r => r.id == id)

/-- Mongoose `Reminder.findByIdAndUpdate`: apply `f` to the documents whose id
matches. -/
def findByIdAndUpdate (db : List Reminder) (id : Nat) (f : Reminder → Reminder) : List Reminder :=
  db.map (fun r => if r.id == id then f r else r)

/-- Outcome of one `executeReminder` call: the collection afterwards and the
transport calls (`chat.postMessage` invocations, as channel × text pairs)
that were attempted. -/
structure ExecResult where
  db : List Reminder
  calls : List (String × String)
  deriving DecidableEq, Repr

/-- Function `executeReminder` (src/server.js:110-137). `deliver` is the Slack
transport (`sendDirectMessageToUser`), the only fallible step modelled: on
success the record is marked executed with `executedAt = now`; on failure
the `catch` block stores the error message and nothing else. A missing or
already-executed record returns with no effects. -/
def executeReminder (deliver : String → String → Except String Unit)
    (now : Int) (db : List Reminder) (id : Nat) : ExecResult :=
  match findById db id with
  | none => { db := db, calls := [] }
  | some r =>
    if r.executed then { db := db, calls := [] }
    else
      match deliver r.slackId r.message with
      | .ok _ =>
        { db := findByIdAndUpdate db id (fun x => { x with executed := true, executedAt := some now })
          calls := [(r.slackId, r.message)] }
      | .error msg =>
        { db := findByIdAndUpdate db id (fun x => { x with error := some msg })
          calls := [(r.slackId, r.message)] }

/-- The `setTimeout` callback armed by `scheduleDelayedMessage`
(src/server.js:100-103): run `executeReminder`, then delete this id's entry
from the in-memory `scheduledTimeouts` map (modelled as the list of ids
with live timers) — the deletion is unconditional, after both outcomes. -/
def timerFire (deliver : String → String → Except String Unit)
    (now : Int) (db : List Reminder) (timeouts : List Nat) (id : Nat) :
    ExecResult × List Nat :=
  (executeReminder deliver now db id, timeouts.filter (fun x => x ≠ id))

/-- The Mongo query issued by `loadPendingReminders` (src/server.js:142-145):
`Reminder.find(\x7b executed: false, scheduledFor: \x7b $gte: new Date() \x7d \x7d)` —
unexecuted documents whose `scheduledFor` is at or after `now`. -/
def findPendingQuery (db : List Reminder) (now : Int) : List Reminder :=
  db.filter (fun r => !r.executed && decide (now ≤ r.scheduledFor))

/-- Function `loadPendingReminders` (src/server.js:140-156). The store response to the
query is an `Except`: `.error` means the find rejected (store unreachable).
The function's own try/catch swallows that error — it logs and returns
normally having armed nothing — so the result is the list of
(id, scheduling decision) pairs, empty on store failure. -/
def loadPendingReminders (store : Except String (List Reminder)) (now : Int) :
    List (Nat × SchedAction) :=
  match store with
  | .error _ => []
  | .ok db =>
    (findPendingQuery db now).map (fun r => (r.id, scheduleDelayedMessage r.scheduledFor now))

/-- Fate of process startup: `exited` is `process.exit(1)`, `running` carries
the scheduling decisions made during recovery. -/
inductive StartupResult where
  | exited
  | running (armed : List (Nat × SchedAction))
  deriving DecidableEq, Repr

/-- Function `initializeApp` (src/server.js:159-172) together with `connectToMongoDB`
(src/server.js:16-27): a failed Mongo connection calls `process.exit(1)`
inside `connectToMongoDB`'s catch; otherwise `loadPendingReminders` runs —
and since its internal catch never rethrows, `initializeApp`'s own catch is
never reached by a store failure and the process keeps starting up. -/
def initializeApp (connectOk : Bool) (store : Except String (List Reminder))
    (now : Int) : StartupResult :=
  if connectOk then .running (loadPendingReminders store now) else .exited

/-- The inbound `/create-item` webhook payload, reduced to the fields the
handler reads (src/server.js:216-226): the anchor date resolved from
`Microsoft.VSTS.Scheduling.StartDate` / `Custom.EndDate` (`none` when
absent, the `throw` case), the e-mail extracted from `System.CreatedBy`,
`Custom.Fullname`, and `System.Tags`. -/
structure Payload where
  startDate : Option Int
  createdByEmail : String
  fullname : String
  tags : String
  deriving DecidableEq, Repr

/-- Substring occurrence on character lists: does `pat` occur contiguously
in the first list? (Empty patterns occur only in the empty list here, but
every pattern used below is non-empty.) -/
def containsSeq : List Char → List Char → Bool
  | [], pat => pat.isEmpty
  | c :: rest, pat => pat.isPrefixOf (c :: rest) || containsSeq rest pat

/-- JavaScript `tags.includes(pat)`: substring containment. -/
def containsStr (s pat : String) : Bool :=
  containsSeq s.data pat.data

/-- Replace the first occurrence of `pat` (JavaScript `String.replace` with
a string pattern replaces only the first match). -/
def replaceFirstSeq : List Char → List Char → List Char → List Char
  | [], _, _ => []
  | c :: rest, pat, repl =>
    if pat.isPrefixOf (c :: rest) then repl ++ (c :: rest).drop pat.length
    else c :: replaceFirstSeq rest pat repl

/-- Substitution `rule.template.replace('<%= name %>', name)`
(src/server.js:242). -/
def renderTemplate (template name : String) : String :=
  String.mk (replaceFirstSeq template.data "<%= name %>".data name.data)

/-- Side effects accumulated by the `/create-item` rule loop: reminders saved
to Mongo (in order), immediate Slack sends (channel × text, in order), and
whether the loop ran to completion (`false` = a throw aborted it). -/
structure RunOutcome where
  saved : List Reminder
  sent : List (String × String)
  ok : Bool
  deriving DecidableEq, Repr

/-- The `for (const rule of rules)` loop of the `/create-item` handler
(src/server.js:234-264). `resolve` is `getSlackUserIdByEmail`; the
`paperwork-signing` rule re-resolves the fixed address
`dminarolli@ritech.co`, every other rule keeps the subject's `slackId`.
`due = start.plus(\x7b days: rule.offsetDays || 0 \x7d)`. A zero-offset rule
sends immediately and persists nothing; any other offset builds and saves a
reminder (fresh ids numbered by save order) and arms its timer. A throw
(failed resolve) stops the loop, keeping the effects already performed. -/
def runRules (resolve : String → Except String String)
    (slackId name : String) (start now : Int) (rules : List Rule)
    (savedAcc : List Reminder) (sentAcc : List (String × String)) : RunOutcome :=
  match rules with
  | [] => { saved := savedAcc, sent := sentAcc, ok := true }
  | rule :: rest =>
    let due := start + rule.offsetDays * msPerDay
    match (if rule.name = "paperwork-signing"
           then resolve "dminarolli@ritech.co" else .ok slackId) with
    | .error _ => { saved := savedAcc, sent := sentAcc, ok := false }
    | .ok currentSlackId =>
      let message := renderTemplate rule.template name
      if rule.offsetDays = 0 then
        runRules resolve slackId name start now rest savedAcc
          (sentAcc ++ [(currentSlackId, message)])
      else
        let reminder : Reminder :=
          { id := savedAcc.length, name := name, slackId := currentSlackId
            ruleName := rule.name, message := message, scheduledFor := due
            executed := false, executedAt := none, createdAt := now, error := none }
        runRules resolve slackId name start now rest (savedAcc ++ [reminder]) sentAcc

/-- The HTTP response and side effects of one `/create-item` request. -/
structure CreateResult where
  httpStatus : Nat
  saved : List Reminder
  sent : List (String × String)
  deriving DecidableEq, Repr

/-- The request processing from category selection onwards: run the rule
loop; a completed loop answers 200, a thrown loop lands in the handler's
catch and answers 500 (keeping the effects already performed). -/
def handleWithRules (resolve : String → Except String String)
    (slackId name : String) (start now : Int) (rules : List Rule) : CreateResult :=
  let out := runRules resolve slackId name start now rules [] []
  { httpStatus := if out.ok then 200 else 500, saved := out.saved, sent := out.sent }

/-- The `/create-item` handler (src/server.js:212-271). A missing anchor date
throws `StartDate not found` before anything else → 500 with no effects; a
failed resolution of the subject's e-mail throws before the loop → 500 with
no effects; otherwise the rules table is `onboardingRules` when
`System.Tags` includes `OnBoarding` and `offboardingRules` for every other
tag value. -/
def createItem (resolve : String → Except String String)
    (payload : Payload) (now : Int) : CreateResult :=
  match payload.startDate with
  | none => { httpStatus := 500, saved := [], sent := [] }
  | some start =>
    let isOnboarding := containsStr payload.tags "OnBoarding"
    match resolve payload.createdByEmail with
    | .error _ => { httpStatus := 500, saved := [], sent := [] }
    | .ok slackId =>
      handleWithRules resolve slackId payload.fullname start now
        (if isOnboarding then onboardingRules else offboardingRules)

/-! ### Concrete fixtures used by witnesses and counterexamples -/

/-- A resolver that succeeds for every e-mail with Slack id `U1`. -/
def resolveAllU1 : String → Except String String := fun _ => Except.ok "U1"

/-- A resolver that knows only `jane@x.co`; every other lookup (in
particular the fixed `dminarolli@ritech.co` address) fails as Slack's
`users_not_found`. -/
def resolveJaneOnly : String → Except String String := fun e =>
  if e = "jane@x.co" then Except.ok "U1" else Except.error "users_not_found"

/-- A resolver distinguishing the fixed address from everyone else. -/
def resolveTwo : String → Except String String := fun e =>
  if e = "dminarolli@ritech.co" then Except.ok "Udaren" else Except.ok "Usubj"

/-- A transport whose every delivery succeeds. -/
def deliverAlwaysOk : String → String → Except String Unit := fun _ _ => Except.ok ()

/-- A transport whose every delivery fails as `channel_not_found`. -/
def deliverAlwaysFail : String → String → Except String Unit :=
  fun _ _ => Except.error "channel_not_found"

/-- A pending reminder one second overdue at `now = 1000`. -/
def pastDueReminder : Reminder :=
  { id := 0, name := "Jane", slackId := "U1", ruleName := "create-email"
    message := "m", scheduledFor := 0, executed := false, executedAt := none
    createdAt := 0, error := none }

/-- An already-executed reminder. -/
def executedReminder : Reminder :=
  { id := 0, name := "Jane", slackId := "U1", ruleName := "create-email"
    message := "m", scheduledFor := 0, executed := true, executedAt := some 0
    createdAt := 0, error := none }

/-- An onboarding payload whose subject e-mail resolves under
`resolveJaneOnly`. -/
def onboardingJane : Payload :=
  { startDate := some 0, createdByEmail := "jane@x.co", fullname := "Jane"
    tags := "OnBoarding" }

/-- A payload that parses (anchor present) but whose tags name neither
`OnBoarding` nor `OffBoarding`. -/
def unrecognizedPayload : Payload :=
  { startDate := some 0, createdByEmail := "a@b", fullname := "X", tags := "Ops" }

/-- An onboarding payload anchored at 2024-06-10T00:00:00Z
(1717977600000 ms). -/
def onboardingAnchorJune10 : Payload :=
  { startDate := some 1717977600000, createdByEmail := "a@b", fullname := "X"
    tags := "OnBoarding" }

/-! ### C1 — recovery of past-due pending tasks -/

/-- C1: refuted as stated — the claim says recovery obtains every Pending
task regardless of `dueAt` and re-arms past-due ones, but the query filters
on `scheduledFor ≥ now`, so a Pending reminder that is overdue at startup
is not returned and nothing is armed for it; had it been handed to the
scheduler, `scheduleDelayedMessage` would have fired it immediately (the
branch the filter makes unreachable). -/
theorem recovery_skips_past_due_pending :
    pastDueReminder.status = Status.Pending ∧
    scheduleDelayedMessage pastDueReminder.scheduledFor 1000 = SchedAction.executeNow ∧
    findPendingQuery [pastDueReminder] 1000 = [] ∧
    loadPendingReminders (Except.ok [pastDueReminder]) 1000 = [] := by
  refine ⟨rfl, rfl, rfl, rfl⟩

/-! ### C2 — timer-chaining scheduling algorithm -/

/-- C2 counterexample: the code never decomposes a long delay. For a delay
of `2 × MAX_DELAY` the armed timer has the full duration, not `MAX_DELAY`;
for the smallest integer delay above `2.5 × MAX_DELAY` exactly one timer is
armed in total (so zero intermediate chain timers, where the claim demands
two) and no armed timer has duration `MAX_DELAY`. -/
theorem no_chaining_counterexample :
    scheduleDelayedMessage (2 * MAX_DELAY) 0 = SchedAction.armTimer 4294967294 ∧
    SchedAction.armTimer 4294967294 ≠ SchedAction.armTimer MAX_DELAY ∧
    armedTimerDurations 5368709118 0 = [5368709118] ∧
    MAX_DELAY ∉ armedTimerDurations 5368709118 0 := by
  refine ⟨rfl, by decide, rfl, by decide⟩

/-- C2 amended: for a task handed to the scheduler, a non-positive delay
invokes the execution engine immediately with no timer, and any positive
delay — however large — arms exactly one timer of the full duration; there
is no `MAX_DELAY` chaining, and at most one timer is ever armed per
hand-off. -/
theorem single_timer_no_chaining (scheduledFor now : Int) :
    (scheduledFor - now ≤ 0 →
      scheduleDelayedMessage scheduledFor now = SchedAction.executeNow) ∧
    (0 < scheduledFor - now →
      scheduleDelayedMessage scheduledFor now = SchedAction.armTimer (scheduledFor - now)) ∧
    (armedTimerDurations scheduledFor now).length ≤ 1 := by
  refine ⟨fun h => ?_, fun h => ?_, ?_⟩
  · simp [scheduleDelayedMessage, h]
  · simp [scheduleDelayedMessage, not_le.mpr h]
  · unfold armedTimerDurations
    rcases scheduleDelayedMessage scheduledFor now with _ | d <;> simp

/-- C2 amended, witness at delays −5 and 5. -/
theorem single_timer_no_chaining_instance :
    scheduleDelayedMessage 0 5 = SchedAction.executeNow ∧
    scheduleDelayedMessage 7 2 = SchedAction.armTimer 5 :=
  ⟨(single_timer_no_chaining 0 5).1 (by decide),
   (single_timer_no_chaining 7 2).2.1 (by decide)⟩

/-! ### C5 — startup behaviour when the reconciliation query fails -/

/-- C5 counterexample: with a healthy Mongo connection but a failing
reconciliation query, the process does not terminate — the query error is
swallowed inside `loadPendingReminders` and startup completes with no
timers armed. -/
theorem startup_survives_query_failure :
    initializeApp true (Except.error "ECONNREFUSED") 0 = StartupResult.running [] ∧
    StartupResult.running [] ≠ StartupResult.exited := by
  refine ⟨rfl, by decide⟩

/-- C5 amended: only a failed Mongo connection is fatal at startup; a
failure of the reconciliation `find` itself is caught and logged inside
`loadPendingReminders`, and the process comes up running with an empty
timer map. -/
theorem connect_failure_fatal_query_failure_swallowed :
    (∀ store now, initializeApp false store now = StartupResult.exited) ∧
    (∀ e now, initializeApp true (Except.error e) now = StartupResult.running []) :=
  ⟨fun _ _ => rfl, fun _ _ => rfl⟩

/-! ### C4 — idempotent re-fire -/

/-- C4: when the stored record is missing, or present but already executed,
`executeReminder` makes no transport call and returns the collection
unchanged. -/
theorem execute_noop_when_missing_or_executed
    (deliver : String → String → Except String Unit) (now : Int)
    (db : List Reminder) (id : Nat) :
    (findById db id = none →
      executeReminder deliver now db id = { db := db, calls := [] }) ∧
    (∀ r, findById db id = some r → r.executed = true →
      executeReminder deliver now db id = { db := db, calls := [] }) := by
  constructor
  · intro h
    unfold executeReminder
    rw [h]
  · intro r h he
    unfold executeReminder
    rw [h]
    simp [he]

/-- C4 witness: an already-executed record and a missing id, both with a
transport that would succeed if called. -/
theorem execute_noop_instance :
    executeReminder deliverAlwaysOk 5 [executedReminder] 0 =
      { db := [executedReminder], calls := [] } ∧
    executeReminder deliverAlwaysOk 5 [] 3 = { db := [], calls := [] } :=
  ⟨(execute_noop_when_missing_or_executed deliverAlwaysOk 5 [executedReminder] 0).2
      executedReminder (by decide) rfl,
   (execute_noop_when_missing_or_executed deliverAlwaysOk 5 [] 3).1 rfl⟩

/-! ### C3 — delivery failure handling -/

/-- Looking up an id after an id-preserving bulk update finds the updated
document. -/
theorem findById_findByIdAndUpdate (db : List Reminder) (id : Nat)
    (f : Reminder → Reminder) (hf : ∀ x, (f x).id = x.id) :
    findById (findByIdAndUpdate db id f) id = (findById db id).map f := by
  induction db with
  | nil => rfl
  | cons a l ih =>
    unfold findById findByIdAndUpdate at *
    rcases h : (a.id == id) with _ | _
    · simpa [List.find?, h] using ih
    · simp [List.find?, h, hf]

/-- C3: when the stored record exists, is unexecuted, and delivery fails
with message `msg`, the record afterwards carries `error = msg` and reads
as Failed under the status abstraction; and the timer-fire path removes the
id's in-memory entry and arms nothing new, whether delivery succeeds or
fails. -/
theorem failure_recorded_and_timer_removed
    (deliver : String → String → Except String Unit) (now : Int)
    (db : List Reminder) (timeouts : List Nat) (id : Nat) (r : Reminder)
    (msg : String) :
    (findById db id = some r → r.executed = false →
      deliver r.slackId r.message = Except.error msg →
        findById (executeReminder deliver now db id).db id =
          some { r with error := some msg } ∧
        ({ r with error := some msg } : Reminder).status = Status.Failed) ∧
    ((timerFire deliver now db timeouts id).2 = timeouts.filter (fun x => x ≠ id) ∧
      id ∉ (timerFire deliver now db timeouts id).2) := by
  constructor
  · intro hfind hexec hfail
    constructor
    · unfold executeReminder
      rw [hfind]
      simp only [hexec, Bool.false_eq_true, if_false, hfail]
      rw [findById_findByIdAndUpdate db id (fun x => { x with error := some msg })
            (fun x => rfl), hfind]
      simp [hexec]
    · simp [Reminder.status, hexec]
  · refine ⟨rfl, ?_⟩
    simp [timerFire, List.mem_filter]

/-- C3 witness: a concrete pending reminder whose delivery fails. -/
theorem failure_recorded_instance :
    findById (executeReminder deliverAlwaysFail 1000 [pastDueReminder] 0).db 0 =
      some { pastDueReminder with error := some "channel_not_found" } ∧
    ({ pastDueReminder with error := some "channel_not_found" } : Reminder).status =
      Status.Failed ∧
    (timerFire deliverAlwaysFail 1000 [pastDueReminder] [0, 7] 0).2 = [7] :=
  ⟨((failure_recorded_and_timer_removed deliverAlwaysFail 1000 [pastDueReminder]
        [0, 7] 0 pastDueReminder "channel_not_found").1 (by decide) rfl rfl).1,
   ((failure_recorded_and_timer_removed deliverAlwaysFail 1000 [pastDueReminder]
        [0, 7] 0 pastDueReminder "channel_not_found").1 (by decide) rfl rfl).2,
   by decide⟩

/-! ### C6 — malformed event rejection -/

/-- C6 counterexample: an event with an anchor date but an unrecognized
category (`System.Tags = "Ops"`) is not rejected — the handler answers 200
after persisting two offboarding reminders and sending four immediate
messages. -/
theorem unrecognized_category_not_rejected :
    resolveAllU1 unrecognizedPayload.createdByEmail = Except.ok "U1" ∧
    (createItem resolveAllU1 unrecognizedPayload 0).httpStatus = 200 ∧
    (createItem resolveAllU1 unrecognizedPayload 0).saved.length = 2 ∧
    (createItem resolveAllU1 unrecognizedPayload 0).sent.length = 4 := by
  refine ⟨rfl, by decide, by decide, by decide⟩

/-- C6 amended: an event with no anchor date is rejected before any task is
created — 500 with nothing persisted and nothing sent; an unrecognized
category alone is not rejected (it selects the offboarding rule table). -/
theorem missing_anchor_rejected_before_effects
    (resolve : String → Except String String) (p : Payload) (now : Int)
    (h : p.startDate = none) :
    createItem resolve p now = { httpStatus := 500, saved := [], sent := [] } := by
  unfold createItem
  rw [h]

/-- C6 amended, witness: a payload with no anchor date. -/
theorem missing_anchor_rejected_instance :
    createItem resolveAllU1
      { startDate := none, createdByEmail := "a@b", fullname := "X"
        tags := "OnBoarding" } 0 =
      { httpStatus := 500, saved := [], sent := [] } :=
  missing_anchor_rejected_before_effects resolveAllU1
    { startDate := none, createdByEmail := "a@b", fullname := "X"
      tags := "OnBoarding" } 0 rfl

/-! ### C7 — recipient resolution failure -/

/-- C7 counterexample: recipient resolution can fail mid-expansion (the
fixed `dminarolli@ritech.co` lookup of the `paperwork-signing` rule) after
earlier rules already persisted tasks and sent messages: the onboarding
expansion for Jane ends 500 with five tasks persisted and three
notifications delivered — a partial schedule. -/
theorem paperwork_resolution_partial_schedule :
    resolveJaneOnly "dminarolli@ritech.co" = Except.error "users_not_found" ∧
    (createItem resolveJaneOnly onboardingJane 0).httpStatus = 500 ∧
    (createItem resolveJaneOnly onboardingJane 0).saved.length = 5 ∧
    (createItem resolveJaneOnly onboardingJane 0).sent.length = 3 := by
  refine ⟨rfl, by decide, by decide, by decide⟩

/-- C7 amended: if resolution of the subject's own recipient fails, the
expansion aborts before any side effect — 500 with nothing persisted and
nothing sent; but a failed resolution of the fixed paperwork-signing
address mid-expansion aborts only the remainder, leaving the earlier rules'
persisted tasks and sent messages in place. -/
theorem subject_resolution_aborts_cleanly :
    (∀ (resolve : String → Except String String) (p : Payload) (now start : Int)
        (e : String),
        p.startDate = some start →
        resolve p.createdByEmail = Except.error e →
        createItem resolve p now = { httpStatus := 500, saved := [], sent := [] }) ∧
    ((createItem resolveJaneOnly onboardingJane 0).httpStatus = 500 ∧
     (createItem resolveJaneOnly onboardingJane 0).saved.length = 5 ∧
     (createItem resolveJaneOnly onboardingJane 0).sent.length = 3) := by
  constructor
  · intro resolve p now start e hs hr
    unfold createItem
    rw [hs, hr]
  · exact ⟨by decide, by decide, by decide⟩

/-- C7 amended, witness: a payload whose subject e-mail does not resolve. -/
theorem subject_resolution_aborts_instance :
    createItem resolveJaneOnly
      { startDate := some 0, createdByEmail := "ghost@x.co", fullname := "G"
        tags := "OnBoarding" } 0 =
      { httpStatus := 500, saved := [], sent := [] } :=
  subject_resolution_aborts_cleanly.1 resolveJaneOnly
    { startDate := some 0, createdByEmail := "ghost@x.co", fullname := "G"
      tags := "OnBoarding" } 0 0 "users_not_found" rfl rfl

/-! ### C9 — unrecognized category falls through to offboarding -/

/-- C9: a request that parses (anchor present) whose tags name neither
onboarding nor offboarding is not rejected: the handler processes it with
the offboarding rule table. -/
theorem unrecognized_category_uses_offboarding
    (resolve : String → Except String String) (p : Payload) (now start : Int)
    (sid : String)
    (hs : p.startDate = some start)
    (hon : containsStr p.tags "OnBoarding" = false)
    (_hoff : containsStr p.tags "OffBoarding" = false)
    (hr : resolve p.createdByEmail = Except.ok sid) :
    createItem resolve p now =
      handleWithRules resolve sid p.fullname start now offboardingRules := by
  simp only [createItem, hs, hr, hon, Bool.false_eq_true, if_false]

/-- C9 witness: the tags value `Ops`. -/
theorem unrecognized_category_uses_offboarding_instance :
    createItem resolveAllU1 unrecognizedPayload 0 =
      handleWithRules resolveAllU1 "U1" "X" 0 0 offboardingRules :=
  unrecognized_category_uses_offboarding resolveAllU1 unrecognizedPayload 0 0 "U1"
    rfl (by decide) (by decide) rfl

/-! ### The rule loop's accumulated effects, in general -/

/-- Every effect of the rule loop is accounted for by some rule of the list:
a saved reminder comes from a non-zero-offset rule, carries that rule's
name, has `scheduledFor = start + offsetDays · msPerDay`, and is addressed
to the fixed-address resolution exactly when the rule is
`paperwork-signing` (to the subject's id otherwise); an immediate send
comes from a zero-offset rule, carries the rendered template, with the same
addressing split. -/
theorem runRules_effects (resolve : String → Except String String)
    (sid name : String) (start now : Int) :
    ∀ (rules : List Rule) (savedAcc : List Reminder)
      (sentAcc : List (String × String)),
      (∀ r, r ∈ (runRules resolve sid name start now rules savedAcc sentAcc).saved →
        r ∈ savedAcc ∨ ∃ rule, rule ∈ rules ∧ rule.offsetDays ≠ 0 ∧
          r.scheduledFor = start + rule.offsetDays * msPerDay ∧
          r.ruleName = rule.name ∧
          ((rule.name = "paperwork-signing" ∧
              resolve "dminarolli@ritech.co" = Except.ok r.slackId) ∨
            (rule.name ≠ "paperwork-signing" ∧ r.slackId = sid))) ∧
      (∀ p, p ∈ (runRules resolve sid name start now rules savedAcc sentAcc).sent →
        p ∈ sentAcc ∨ ∃ rule, rule ∈ rules ∧ rule.offsetDays = 0 ∧
          p.2 = renderTemplate rule.template name ∧
          ((rule.name = "paperwork-signing" ∧
              resolve "dminarolli@ritech.co" = Except.ok p.1) ∨
            (rule.name ≠ "paperwork-signing" ∧ p.1 = sid))) := by
  intro rules
  induction rules with
  | nil =>
    intro savedAcc sentAcc
    exact ⟨fun r h => Or.inl h, fun p h => Or.inl h⟩
  | cons rule rest ih =>
    intro savedAcc sentAcc
    by_cases hp : rule.name = "paperwork-signing"
    · cases hres : resolve "dminarolli@ritech.co" with
      | error e =>
        have hred : runRules resolve sid name start now (rule :: rest) savedAcc sentAcc
            = { saved := savedAcc, sent := sentAcc, ok := false } := by
          simp [runRules, hp, hres]
        rw [hred]
        exact ⟨fun r h => Or.inl h, fun p h => Or.inl h⟩
      | ok cur =>
        by_cases hz : rule.offsetDays = 0
        · have hred : runRules resolve sid name start now (rule :: rest) savedAcc sentAcc
              = runRules resolve sid name start now rest savedAcc
                  (sentAcc ++ [(cur, renderTemplate rule.template name)]) := by
            simp [runRules, hp, hres, hz]
          rw [hred]
          constructor
          · intro r h
            rcases (ih savedAcc (sentAcc ++ [(cur, renderTemplate rule.template name)])).1 r h with
              h1 | ⟨ru, hru, htail⟩
            · exact Or.inl h1
            · rw [hres] at htail
              exact Or.inr ⟨ru, List.mem_cons_of_mem _ hru, htail⟩
          · intro p h
            rcases (ih savedAcc (sentAcc ++ [(cur, renderTemplate rule.template name)])).2 p h with
              h1 | ⟨ru, hru, htail⟩
            · rcases List.mem_append.mp h1 with h2 | h2
              · exact Or.inl h2
              · have h3 : p = (cur, renderTemplate rule.template name) :=
                  List.mem_singleton.mp h2
                subst h3
                exact Or.inr ⟨rule, List.mem_cons_self _ _, hz, rfl, Or.inl ⟨hp, rfl⟩⟩
            · rw [hres] at htail
              exact Or.inr ⟨ru, List.mem_cons_of_mem _ hru, htail⟩
        · have hred : runRules resolve sid name start now (rule :: rest) savedAcc sentAcc
              = runRules resolve sid name start now rest
                  (savedAcc ++ [{ id := savedAcc.length, name := name, slackId := cur
                                  ruleName := rule.name
                                  message := renderTemplate rule.template name
                                  scheduledFor := start + rule.offsetDays * msPerDay
                                  executed := false, executedAt := none
                                  createdAt := now, error := none }]) sentAcc := by
            simp [runRules, hp, hres, hz]
          rw [hred]
          constructor
          · intro r h
            rcases (ih _ sentAcc).1 r h with h1 | ⟨ru, hru, htail⟩
            · rcases List.mem_append.mp h1 with h2 | h2
              · exact Or.inl h2
              · have h3 := List.mem_singleton.mp h2
                subst h3
                exact Or.inr ⟨rule, List.mem_cons_self _ _, hz, rfl, rfl,
                  Or.inl ⟨hp, rfl⟩⟩
            · rw [hres] at htail
              exact Or.inr ⟨ru, List.mem_cons_of_mem _ hru, htail⟩
          · intro p h
            rcases (ih _ sentAcc).2 p h with h1 | ⟨ru, hru, htail⟩
            · exact Or.inl h1
            · rw [hres] at htail
              exact Or.inr ⟨ru, List.mem_cons_of_mem _ hru, htail⟩
    · by_cases hz : rule.offsetDays = 0
      · have hred : runRules resolve sid name start now (rule :: rest) savedAcc sentAcc
            = runRules resolve sid name start now rest savedAcc
                (sentAcc ++ [(sid, renderTemplate rule.template name)]) := by
          simp [runRules, hp, hz]
        rw [hred]
        constructor
        · intro r h
          rcases (ih savedAcc (sentAcc ++ [(sid, renderTemplate rule.template name)])).1 r h with
            h1 | ⟨ru, hru, htail⟩
          · exact Or.inl h1
          · exact Or.inr ⟨ru, List.mem_cons_of_mem _ hru, htail⟩
        · intro p h
          rcases (ih savedAcc (sentAcc ++ [(sid, renderTemplate rule.template name)])).2 p h with
            h1 | ⟨ru, hru, htail⟩
          · rcases List.mem_append.mp h1 with h2 | h2
            · exact Or.inl h2
            · have h3 : p = (sid, renderTemplate rule.template name) :=
                List.mem_singleton.mp h2
              subst h3
              exact Or.inr ⟨rule, List.mem_cons_self _ _, hz, rfl, Or.inr ⟨hp, rfl⟩⟩
          · exact Or.inr ⟨ru, List.mem_cons_of_mem _ hru, htail⟩
      · have hred : runRules resolve sid name start now (rule :: rest) savedAcc sentAcc
            = runRules resolve sid name start now rest
                (savedAcc ++ [{ id := savedAcc.length, name := name, slackId := sid
                                ruleName := rule.name
                                message := renderTemplate rule.template name
                                scheduledFor := start + rule.offsetDays * msPerDay
                                executed := false, executedAt := none
                                createdAt := now, error := none }]) sentAcc := by
          simp [runRules, hp, hz]
        rw [hred]
        constructor
        · intro r h
          rcases (ih _ sentAcc).1 r h with h1 | ⟨ru, hru, htail⟩
          · rcases List.mem_append.mp h1 with h2 | h2
            · exact Or.inl h2
            · have h3 := List.mem_singleton.mp h2
              subst h3
              exact Or.inr ⟨rule, List.mem_cons_self _ _, hz, rfl, rfl,
                Or.inr ⟨hp, rfl⟩⟩
          · exact Or.inr ⟨ru, List.mem_cons_of_mem _ hru, htail⟩
        · intro p h
          rcases (ih _ sentAcc).2 p h with h1 | ⟨ru, hru, htail⟩
          · exact Or.inl h1
          · exact Or.inr ⟨ru, List.mem_cons_of_mem _ hru, htail⟩

/-! ### C8 — due date arithmetic and the zero-offset split -/

/-- The first reminder persisted by an offboarding run: `final-payroll`,
thirty days after an anchor of 0. -/
def finalPayrollX : Reminder :=
  { id := 0, name := "X", slackId := "U1", ruleName := "final-payroll"
    message := "🔔 Process final payroll (salary + remaining PTO) for X - Renisa"
    scheduledFor := 2592000000, executed := false, executedAt := none
    createdAt := 0, error := none }

/-- C8: every reminder persisted by the rule loop stems from a rule with a
non-zero offset (zero-offset rules are sent immediately, never persisted)
and carries `dueAt = anchor + offsetDays` days, computed once at creation;
concretely, against the anchor 2024-06-10T00:00:00Z the onboarding run
persists `create-email` (offset −7) at 2024-06-03T00:00:00Z and the three
zero-offset rules appear only among the immediate sends. -/
theorem due_at_from_rule_offset :
    (∀ (resolve : String → Except String String) (sid name : String)
        (start now : Int) (rules : List Rule) (r : Reminder),
        r ∈ (runRules resolve sid name start now rules [] []).saved →
        ∃ rule, rule ∈ rules ∧ rule.offsetDays ≠ 0 ∧
          r.scheduledFor = start + rule.offsetDays * msPerDay ∧
          r.ruleName = rule.name) ∧
    ((createItem resolveAllU1 onboardingAnchorJune10 0).saved.map
        (fun r => (r.ruleName, r.scheduledFor)) =
      [("create-email", 1717372800000), ("create-bamboo", 1717718400000),
       ("send-welcome", 1717372800000), ("setup-device", 1717632000000),
       ("activate-card", 1717632000000), ("paperwork-signing", 1718150400000),
       ("upload-docs", 1720569600000)]) ∧
    ((createItem resolveAllU1 onboardingAnchorJune10 0).sent.map Prod.snd =
      ["🔔 Day 1 Orientation for X (tour & policies)",
       "🔔 Ensure all work-related systems work correctly for X",
       "🔔 Introduction with the team for X"]) := by
  refine ⟨?_, by decide, by decide⟩
  intro resolve sid name start now rules r h
  rcases (runRules_effects resolve sid name start now rules [] []).1 r h with
    h1 | ⟨ru, hru, hne, hsch, hrn, _⟩
  · exact absurd h1 (List.not_mem_nil r)
  · exact ⟨ru, hru, hne, hsch, hrn⟩

/-- C8 witness: the `final-payroll` reminder of a concrete offboarding run. -/
theorem due_at_from_rule_offset_instance :
    finalPayrollX ∈ (runRules resolveAllU1 "U1" "X" 0 0 offboardingRules [] []).saved ∧
    (∃ rule, rule ∈ offboardingRules ∧ rule.offsetDays ≠ 0 ∧
      finalPayrollX.scheduledFor = 0 + rule.offsetDays * msPerDay ∧
      finalPayrollX.ruleName = rule.name) :=
  ⟨by decide,
   due_at_from_rule_offset.1 resolveAllU1 "U1" "X" 0 0 offboardingRules
     finalPayrollX (by decide)⟩

/-! ### C10 — the paperwork-signing rule's fixed recipient -/

/-- The reminder the `paperwork-signing` rule persists in an onboarding run
under `resolveTwo` (subject `Usubj`, fixed address `Udaren`). -/
def paperworkSavedX : Reminder :=
  { id := 5, name := "X", slackId := "Udaren", ruleName := "paperwork-signing"
    message := "🔔 Paperwork signing (Silvio) for X"
    scheduledFor := 172800000, executed := false, executedAt := none
    createdAt := 0, error := none }

/-- C10: in an onboarding expansion, when the fixed address
`dminarolli@ritech.co` resolves to `fixedId`, the persisted
`paperwork-signing` reminder is addressed to `fixedId` while every other
persisted reminder — and every immediate send — is addressed to the
subject's resolved id. -/
theorem paperwork_addressed_to_fixed_recipient
    (resolve : String → Except String String) (sid fixedId name : String)
    (start now : Int)
    (hfix : resolve "dminarolli@ritech.co" = Except.ok fixedId) :
    (∀ r, r ∈ (runRules resolve sid name start now onboardingRules [] []).saved →
      (r.ruleName = "paperwork-signing" → r.slackId = fixedId) ∧
      (r.ruleName ≠ "paperwork-signing" → r.slackId = sid)) ∧
    (∀ p, p ∈ (runRules resolve sid name start now onboardingRules [] []).sent →
      p.1 = sid) := by
  constructor
  · intro r h
    rcases (runRules_effects resolve sid name start now onboardingRules [] []).1 r h with
      h1 | ⟨ru, hru, _, _, hrn, hsl⟩
    · exact absurd h1 (List.not_mem_nil r)
    · rcases hsl with ⟨hpn, hok⟩ | ⟨hpn, hsid⟩
      · have hinj : fixedId = r.slackId := by
          have h4 := hfix.symm.trans hok
          injection h4
        constructor
        · intro _; exact hinj.symm
        · intro hne2; exact absurd (hrn.trans hpn) hne2
      · constructor
        · intro hpp; exact absurd (hrn.symm.trans hpp) hpn
        · intro _; exact hsid
  · intro p h
    rcases (runRules_effects resolve sid name start now onboardingRules [] []).2 p h with
      h1 | ⟨ru, hru, hz, _, hsl⟩
    · exact absurd h1 (List.not_mem_nil p)
    · rcases hsl with ⟨hpn, _⟩ | ⟨_, hsid⟩
      · exfalso
        have hfact : ∀ ru, ru ∈ onboardingRules →
            ru.name = "paperwork-signing" → ru.offsetDays ≠ 0 := by decide
        exact hfact ru hru hpn hz
      · exact hsid

/-- C10 witness: under `resolveTwo`, the concrete onboarding run persists
the paperwork reminder addressed to `Udaren`, not to the subject's
`Usubj`. -/
theorem paperwork_addressed_instance :
    paperworkSavedX ∈ (runRules resolveTwo "Usubj" "X" 0 0 onboardingRules [] []).saved ∧
    paperworkSavedX.slackId = "Udaren" :=
  ⟨by decide,
   ((paperwork_addressed_to_fixed_recipient resolveTwo "Usubj" "Udaren" "X" 0 0
        rfl).1 paperworkSavedX (by decide)).1 rfl⟩
